import Mathlib

/-!
Verification development for the expense_tracker repository.

The repository ships a Next.js frontend (API client in frontend/lib/api.ts,
page logic in frontend/app/page.tsx) together with the product spec.  The
pure logic of the frontend source is embedded below as executable Lean
definitions.  The FastAPI backend is not part of the source tree; backend
behaviour that the spec describes (duplicate-review resolution, bulk
resolution, re-classification, fingerprinting, rule config save/load) is
modelled from the spec, and each such definition carries a doc comment
saying so.
-/

namespace ExpenseTracker

/-- Direction of a canonical transaction, from the Transaction type in
frontend/lib/types.ts. -/
inductive Direction where
  | debit
  | credit
deriving DecidableEq, Repr

/-! ## withQuery (frontend/lib/api.ts) -/

/-- TransactionsQuery from frontend/lib/types.ts: every field is optional.
Optional string fields model string or undefined; optional numeric fields
model number or undefined. -/
structure TransactionsQuery where
  start_date : Option String
  end_date : Option String
  category : Option String
  limit : Option Int
  offset : Option Int
deriving DecidableEq, Repr

/-- Hex digit for percent encoding (uppercase, as produced by
URLSearchParams). -/
def hexDigit (n : Nat) : Char :=
  if n < 10 then Char.ofNat (48 + n) else Char.ofNat (55 + n)

/-- UTF-8 byte sequence of one character, used by the
application/x-www-form-urlencoded serializer of URLSearchParams. -/
def utf8Bytes (c : Char) : List Nat :=
  let n := c.toNat
  if n < 128 then [n]
  else if n < 2048 then [192 + n / 64, 128 + n % 64]
  else if n < 65536 then [224 + n / 4096, 128 + (n / 64) % 64, 128 + n % 64]
  else [240 + n / 262144, 128 + (n / 4096) % 64, 128 + (n / 64) % 64, 128 + n % 64]

/-- Percent encoding of one byte. -/
def percentEncodeByte (b : Nat) : String :=
  String.mk ['%', hexDigit (b / 16), hexDigit (b % 16)]

/-- Characters that application/x-www-form-urlencoded leaves unescaped. -/
def formUnreserved (c : Char) : Bool :=
  (97 ≤ c.toNat && c.toNat ≤ 122) || (65 ≤ c.toNat && c.toNat ≤ 90) ||
  (48 ≤ c.toNat && c.toNat ≤ 57) || c == '*' || c == '-' || c == '.' || c == '_'

/-- Encoding of one character under application/x-www-form-urlencoded. -/
def formEncodeChar (c : Char) : String :=
  if formUnreserved c then String.singleton c
  else if c == ' ' then "+"
  else String.join ((utf8Bytes c).map percentEncodeByte)

/-- Encoding of a whole string under application/x-www-form-urlencoded,
as URLSearchParams.toString applies to each key and value. -/
def formEncode (s : String) : String :=
  String.join (s.data.map formEncodeChar)

/-- One conditional query.set call for an optional string field: the code
guards with JavaScript truthiness, so undefined and the empty string are
both dropped. -/
def optStringPair (key : String) : Option String → List (String × String)
  | none => []
  | some s => if s == "" then [] else [(key, s)]

/-- One conditional query.set call for an optional numeric field: the code
guards with an explicit undefined comparison, so every defined value
(including 0) is kept, serialized with String(n). -/
def optNumPair (key : String) : Option Int → List (String × String)
  | none => []
  | some n => [(key, toString n)]

/-- The key/value pairs the withQuery function of frontend/lib/api.ts puts
into its URLSearchParams, in source order. -/
def queryPairs (params : TransactionsQuery) : List (String × String) :=
  optStringPair "start_date" params.start_date ++
  optStringPair "end_date" params.end_date ++
  optStringPair "category" params.category ++
  optNumPair "limit" params.limit ++
  optNumPair "offset" params.offset

/-- URLSearchParams.toString: ampersand-separated encoded key=value pairs. -/
def serializeQueryPairs : List (String × String) → String
  | [] => ""
  | [kv] => formEncode kv.1 ++ "=" ++ formEncode kv.2
  | kv :: rest => formEncode kv.1 ++ "=" ++ formEncode kv.2 ++ "&" ++ serializeQueryPairs rest

/-- withQuery from frontend/lib/api.ts: serialize the conditionally added
parameters and append them after a question mark only when the serialized
query is non-empty. -/
def withQuery (path : String) (params : TransactionsQuery) : String :=
  let serialized := serializeQueryPairs (queryPairs params)
  if serialized == "" then path else path ++ "?" ++ serialized

/-! ## parseJsonResponse and deleteClassificationRule (frontend/lib/api.ts) -/

/-- Shallow model of a Fetch API response: HTTP status, the body as text
(what response.text resolves to) and the outcome of parsing the body as
JSON of the expected type (what response.json resolves to).  The parse is
fallible: jsonBody is none when the body is not valid JSON, in which case
response.json rejects with a SyntaxError; the TypeScript cast accepts any
successfully parsed JSON value, so a successful parse is modelled as
some value of the expected type. -/
structure FetchResponse (T : Type) where
  status : Nat
  bodyText : String
  jsonBody : Option T

/-- The Fetch API ok flag: status in the inclusive range 200 to 299. -/
def FetchResponse.ok {T : Type} (r : FetchResponse T) : Bool :=
  decide (200 ≤ r.status ∧ r.status ≤ 299)

/-- The fallback error message built by parseJsonResponse when the error
body is empty. -/
def requestFailedMessage (status : Nat) : String :=
  "Request failed with status " ++ toString status

/-- Stand-in for the message of the SyntaxError with which response.json
rejects on a body that is not valid JSON; the exact text is
runtime-specific and is in particular not the response body text. -/
def jsonSyntaxErrorMessage : String := "Unexpected token in JSON"

/-- parseJsonResponse from frontend/lib/api.ts: on a non-ok response throw
an error whose message is the body text if truthy, else the fallback; on an
ok response await response.json, which returns the parsed JSON body when
the body is valid JSON and rejects with a SyntaxError otherwise. -/
def parseJsonResponse {T : Type} (response : FetchResponse T) : Except String T :=
  if !response.ok then
    Except.error (if response.bodyText == "" then requestFailedMessage response.status
                  else response.bodyText)
  else
    match response.jsonBody with
    | some v => Except.ok v
    | none => Except.error jsonSyntaxErrorMessage

/-- deleteClassificationRule from frontend/lib/api.ts: same non-ok check and
error construction as parseJsonResponse, inlined, with no JSON parsing. -/
def deleteClassificationRule (response : FetchResponse Unit) : Except String Unit :=
  if !response.ok then
    Except.error (if response.bodyText == "" then requestFailedMessage response.status
                  else response.bodyText)
  else
    Except.ok ()

/-! ## Rule create / update validation (frontend/app/page.tsx) -/

/-- Rule types from frontend/lib/types.ts. -/
inductive ClassificationRuleType where
  | source_category_contains
  | merchant_exact
  | merchant_contains
  | description_contains
  | text_contains
deriving DecidableEq, Repr

/-- Result of the JavaScript Number conversion applied to a form field:
either not a number, an infinity, or a finite value (modelled as a
rational). -/
inductive JsNumber where
  | nan
  | posInf
  | negInf
  | val (q : ℚ)
deriving DecidableEq, Repr

/-- Number.isFinite: true exactly on finite values. -/
def JsNumber.isFinite : JsNumber → Bool
  | .val _ => true
  | _ => false

/-- Number.isInteger: true exactly on finite integral values. -/
def JsNumber.isInteger : JsNumber → Bool
  | .val q => q.den == 1
  | _ => false

/-- The confidence check of handleCreateRule and handleSaveRule:
not Number.isFinite, or below 0, or above 1 (short-circuit order as in the
source). -/
def confidenceInvalid : JsNumber → Bool
  | .val q => decide (q < 0 ∨ 1 < q)
  | _ => true

/-- The priority check of handleCreateRule and handleSaveRule:
not Number.isInteger, or negative. -/
def priorityInvalid : JsNumber → Bool
  | .val q => decide (q.den ≠ 1 ∨ q < 0)
  | _ => true

/-- The JSON payload both createClassificationRule and
updateClassificationRule are invoked with from the rule handlers (the
handlers always send all six fields). -/
structure ClassificationRulePayload where
  rule_type : ClassificationRuleType
  pattern : String
  category : String
  confidence : ℚ
  priority : ℚ
  is_active : Bool
deriving DecidableEq, Repr

/-- The new-rule form state read by handleCreateRule; the two numeric
fields carry the result of the Number conversion of the raw text. -/
structure NewRuleForm where
  newRuleType : ClassificationRuleType
  newRulePattern : String
  newRuleCategory : String
  newRuleConfidence : JsNumber
  newRulePriority : JsNumber
  newRuleActive : Bool
deriving Repr

/-- handleCreateRule from frontend/app/page.tsx: trim pattern and category,
validate pattern, category, confidence and priority in source order, and
only when every check passes invoke createClassificationRule with the
validated values unmodified.  An error return models setRuleError plus
early return with no API call. -/
def handleCreateRule (form : NewRuleForm) : Except String ClassificationRulePayload :=
  let pattern := form.newRulePattern.trim
  let categoryValue := form.newRuleCategory.trim
  if pattern == "" then Except.error "Rule pattern is required."
  else if categoryValue == "" then Except.error "Rule category is required."
  else if confidenceInvalid form.newRuleConfidence then
    Except.error "Rule confidence must be between 0 and 1."
  else if priorityInvalid form.newRulePriority then
    Except.error "Rule priority must be a non-negative integer."
  else
    match form.newRuleConfidence, form.newRulePriority with
    | .val c, .val p =>
        Except.ok { rule_type := form.newRuleType, pattern := pattern,
                    category := categoryValue, confidence := c, priority := p,
                    is_active := form.newRuleActive }
    | _, _ => Except.error "Rule confidence must be between 0 and 1."

/-- The per-row edit draft read by handleSaveRule; numeric fields again
carry the Number conversion of the draft text. -/
structure RuleDraft where
  rule_type : ClassificationRuleType
  pattern : String
  category : String
  confidence : JsNumber
  priority : JsNumber
  is_active : Bool
deriving Repr

/-- handleSaveRule from frontend/app/page.tsx: identical validation to
handleCreateRule over the edit draft; only when every check passes is
updateClassificationRule invoked with the validated values unmodified. -/
def handleSaveRule (draft : RuleDraft) : Except String ClassificationRulePayload :=
  let pattern := draft.pattern.trim
  let categoryValue := draft.category.trim
  if pattern == "" then Except.error "Rule pattern is required."
  else if categoryValue == "" then Except.error "Rule category is required."
  else if confidenceInvalid draft.confidence then
    Except.error "Rule confidence must be between 0 and 1."
  else if priorityInvalid draft.priority then
    Except.error "Rule priority must be a non-negative integer."
  else
    match draft.confidence, draft.priority with
    | .val c, .val p =>
        Except.ok { rule_type := draft.rule_type, pattern := pattern,
                    category := categoryValue, confidence := c, priority := p,
                    is_active := draft.is_active }
    | _, _ => Except.error "Rule confidence must be between 0 and 1."

/-! ## Manual expense entry validation (frontend/app/page.tsx) -/

/-- The payload of createManualTransaction, from ManualTransactionInput in
frontend/lib/types.ts (amount as a decimal-precision rational). -/
structure ManualTransactionInput where
  transaction_date : String
  description_raw : String
  merchant_normalized : Option String
  amount : ℚ
  currency : String
  direction : Direction
  category : String
deriving DecidableEq, Repr

/-- Sentinel option value for creating a new category inline. -/
def NEW_CATEGORY_OPTION : String := "__new__"

/-- The form state read by handleAddManualExpense; manualAmount carries the
Number conversion of the raw amount text. -/
structure ManualExpenseForm where
  manualDate : String
  manualDescription : String
  manualMerchant : String
  manualAmount : JsNumber
  manualCategory : String
  manualNewCategory : String
  assignableCategories : List String
deriving Repr

/-- handleAddManualExpense from frontend/app/page.tsx: validate date,
description and amount in source order; resolve the target category
(createCategory, a network call returning the created name, is abstracted
as the createCategory argument); on success invoke createManualTransaction
with the validated payload.  An error return models setManualError plus
early return, or the thrown error of the new-category branch: in either
case createManualTransaction is not invoked. -/
def handleAddManualExpense (createCategory : String → String)
    (form : ManualExpenseForm) : Except String ManualTransactionInput :=
  if form.manualDate == "" then Except.error "Select a date."
  else if form.manualDescription.trim == "" then Except.error "Description is required."
  else
    match form.manualAmount with
    | .val parsedAmount =>
        if parsedAmount ≤ 0 then Except.error "Amount must be a positive number."
        else
          let firstChoice := if form.manualCategory == "" then
              form.assignableCategories.headD "uncategorized"
            else form.manualCategory
          let resolved : Except String String :=
            if firstChoice == NEW_CATEGORY_OPTION then
              if form.manualNewCategory.trim == "" then
                Except.error "Enter a new category name."
              else Except.ok (createCategory form.manualNewCategory.trim)
            else Except.ok firstChoice
          match resolved with
          | Except.error e => Except.error e
          | Except.ok finalCategory =>
              Except.ok { transaction_date := form.manualDate,
                          description_raw := form.manualDescription.trim,
                          merchant_normalized :=
                            if form.manualMerchant.trim == "" then none
                            else some form.manualMerchant.trim,
                          amount := parsedAmount,
                          currency := "USD",
                          direction := Direction.debit,
                          category := finalCategory }
    | _ => Except.error "Amount must be a positive number."

/-! ## Spec-modelled backend state

The FastAPI backend is not part of the source tree; the definitions in the
rest of this file are modelled from spec.md (sections 3, 4.3, 4.4, 4.5, 6
and 7) and from the response types declared in frontend/lib/types.ts. -/

/-- Modelled from the spec: the Canonical Transaction record of spec.md
section 3 (backend persistence model absent from the source tree).  The
amount is a non-negative magnitude held in minor currency units as an
integer for decimal precision. -/
structure Transaction where
  id : String
  source_import_id : String
  transaction_date : String
  description_raw : String
  merchant_normalized : String
  amount : Int
  currency : String
  direction : Direction
  category : String
  category_confidence : ℚ
  is_user_assigned : Bool
  dedupe_fingerprint : String
deriving DecidableEq, Repr

/-- Duplicate review status from frontend/lib/types.ts. -/
inductive DuplicateReviewStatus where
  | pending
  | confirmed_duplicate
  | ignored
deriving DecidableEq, Repr

/-- Modelled from the spec: the Duplicate Review record of spec.md section 3
(backend persistence model absent from the source tree), matching the
DuplicateReview shape of frontend/lib/types.ts: traceability references, a
full copy of the withheld draft, and a status. -/
structure DuplicateReview where
  id : String
  source_import_id : String
  source_row_number : Nat
  duplicate_scope : String
  duplicate_reason : String
  matched_transaction_id : Option String
  transaction_date : String
  description_raw : String
  merchant_normalized : String
  amount : Int
  currency : String
  direction : Direction
  category : String
  category_confidence : ℚ
  dedupe_fingerprint : String
  status : DuplicateReviewStatus
deriving DecidableEq, Repr

/-- Modelled from the spec: the persisted state the duplicate-review
operations read and write, namely the committed Canonical Transactions and
the Duplicate Review queue (backend store absent from the source tree). -/
structure DupReviewState where
  transactions : List Transaction
  reviews : List DuplicateReview
deriving DecidableEq, Repr

/-- Resolve action from frontend/lib/types.ts. -/
inductive DuplicateReviewResolveAction where
  | mark_duplicate
  | not_duplicate
deriving DecidableEq, Repr

/-- Modelled from the spec: promotion of a stored duplicate-review draft
into a Canonical Transaction (spec.md section 3, Duplicate Review
lifecycle).  The opaque id is generated at persistence time; it is derived
here deterministically from the review id. -/
def promoteReview (r : DuplicateReview) : Transaction :=
  { id := "tx_from_review_" ++ r.id,
    source_import_id := r.source_import_id,
    transaction_date := r.transaction_date,
    description_raw := r.description_raw,
    merchant_normalized := r.merchant_normalized,
    amount := r.amount,
    currency := r.currency,
    direction := r.direction,
    category := r.category,
    category_confidence := r.category_confidence,
    is_user_assigned := false,
    dedupe_fingerprint := r.dedupe_fingerprint }

/-- Deletion of a review row by id from the queue. -/
def removeReview (reviews : List DuplicateReview) (reviewId : String) : List DuplicateReview :=
  reviews.filter (fun r => !(r.id == reviewId))

/-- Result shape of the single resolve endpoint, from
DuplicateReviewResolveResult in frontend/lib/types.ts. -/
structure DuplicateReviewResolveResult where
  action : DuplicateReviewResolveAction
  deleted_review_id : String
  created_transaction_id : Option String
deriving DecidableEq, Repr

/-- Modelled from the spec: the single duplicate-review resolve operation
(spec.md section 4.4; backend endpoint absent from the source tree).
A pending review resolved with mark_duplicate is discarded and no
transaction is created; resolved with not_duplicate it is promoted into
exactly one Canonical Transaction; in both cases the review row is removed.
A missing or already-resolved review is rejected without effect. -/
def resolveDuplicateReview (st : DupReviewState) (reviewId : String)
    (action : DuplicateReviewResolveAction) :
    DupReviewState × Except String DuplicateReviewResolveResult :=
  match st.reviews.find? (fun r => r.id == reviewId) with
  | none => (st, Except.error "Duplicate review not found")
  | some r =>
    if r.status ≠ DuplicateReviewStatus.pending then
      (st, Except.error "Duplicate review is not pending")
    else
      match action with
      | DuplicateReviewResolveAction.mark_duplicate =>
          ({ transactions := st.transactions,
             reviews := removeReview st.reviews reviewId },
           Except.ok { action := DuplicateReviewResolveAction.mark_duplicate,
                       deleted_review_id := r.id,
                       created_transaction_id := none })
      | DuplicateReviewResolveAction.not_duplicate =>
          ({ transactions := st.transactions ++ [promoteReview r],
             reviews := removeReview st.reviews reviewId },
           Except.ok { action := DuplicateReviewResolveAction.not_duplicate,
                       deleted_review_id := r.id,
                       created_transaction_id := some (promoteReview r).id })

/-- Result shape of the bulk resolve endpoint, from
DuplicateReviewBulkResolveResult in frontend/lib/types.ts. -/
structure DuplicateReviewBulkResolveResult where
  action : DuplicateReviewResolveAction
  requested_count : Nat
  processed_count : Nat
  deleted_reviews_count : Nat
  created_transactions_count : Nat
  skipped_missing_count : Nat
  skipped_non_pending_count : Nat
deriving DecidableEq, Repr

/-- Number of reviews currently in the pending state. -/
def pendingReviewCount (st : DupReviewState) : Nat :=
  (st.reviews.filter (fun r => r.status == DuplicateReviewStatus.pending)).length

/-- Modelled from the spec: one per-item step of bulk resolution (spec.md
section 4.4, all-or-nothing per item): a missing id or a non-pending review
is counted as skipped; a pending review is resolved exactly as the single
resolve operation does. -/
def bulkResolveStep (action : DuplicateReviewResolveAction)
    (acc : DupReviewState × DuplicateReviewBulkResolveResult) (reviewId : String) :
    DupReviewState × DuplicateReviewBulkResolveResult :=
  let (st, res) := acc
  match st.reviews.find? (fun r => r.id == reviewId) with
  | none => (st, { res with skipped_missing_count := res.skipped_missing_count + 1 })
  | some r =>
    if r.status ≠ DuplicateReviewStatus.pending then
      (st, { res with skipped_non_pending_count := res.skipped_non_pending_count + 1 })
    else
      match action with
      | DuplicateReviewResolveAction.mark_duplicate =>
          ({ transactions := st.transactions,
             reviews := removeReview st.reviews reviewId },
           { res with processed_count := res.processed_count + 1,
                      deleted_reviews_count := res.deleted_reviews_count + 1 })
      | DuplicateReviewResolveAction.not_duplicate =>
          ({ transactions := st.transactions ++ [promoteReview r],
             reviews := removeReview st.reviews reviewId },
           { res with processed_count := res.processed_count + 1,
                      deleted_reviews_count := res.deleted_reviews_count + 1,
                      created_transactions_count := res.created_transactions_count + 1 })

/-- Modelled from the spec: the bulk resolve operation of spec.md sections
4.4 and 7 (backend endpoint absent from the source tree).  The caller
supplies explicit ids, the expected pending count and a confirmation flag
(the safeguards of the bulk-resolve contract); if confirmation is absent or
the stated expected count differs from the live pending set the request is
rejected and the state is returned untouched, otherwise the ids are
processed item by item. -/
def resolveDuplicateReviewsBulk (st : DupReviewState) (reviewIds : List String)
    (action : DuplicateReviewResolveAction) (expectedPendingCount : Nat)
    (confirm : Bool) :
    DupReviewState × Except String DuplicateReviewBulkResolveResult :=
  if !confirm then
    (st, Except.error "Bulk resolve requires explicit confirmation")
  else if expectedPendingCount ≠ pendingReviewCount st then
    (st, Except.error "Pending duplicate review count does not match; bulk resolve aborted")
  else
    let init : DuplicateReviewBulkResolveResult :=
      { action := action, requested_count := reviewIds.length, processed_count := 0,
        deleted_reviews_count := 0, created_transactions_count := 0,
        skipped_missing_count := 0, skipped_non_pending_count := 0 }
    let final := reviewIds.foldl (bulkResolveStep action) (st, init)
    (final.1, Except.ok final.2)

/-! ## Spec-modelled re-classification pass -/

/-- Request shape of the recategorize endpoint, from
RecategorizeTransactionsInput in frontend/lib/types.ts; an absent
include_user_assigned flag is the same as false (spec.md section 4.5:
user-assigned rows are excluded by default). -/
structure RecategorizeTransactionsInput where
  start_date : Option String
  end_date : Option String
  category : Option String
  include_user_assigned : Bool
deriving DecidableEq, Repr

/-- Result shape of the recategorize endpoint, from
RecategorizeTransactionsResult in frontend/lib/types.ts: exactly the four
audit counts of spec.md section 4.5. -/
structure RecategorizeTransactionsResult where
  scanned_rows : Nat
  updated_rows : Nat
  unchanged_rows : Nat
  skipped_user_assigned_rows : Nat
deriving DecidableEq, Repr

/-- Modelled from the spec: the date-range and category filter the
re-classification pass must accept (spec.md section 4.5; backend endpoint
absent from the source tree). -/
def txMatchesRecatFilter (input : RecategorizeTransactionsInput) (tx : Transaction) : Bool :=
  (match input.start_date with
   | none => true
   | some d => decide (d ≤ tx.transaction_date)) &&
  (match input.end_date with
   | none => true
   | some d => decide (tx.transaction_date ≤ d)) &&
  (match input.category with
   | none => true
   | some c => tx.category == c)

/-- Outcome of the pass on one row: outside the filter, skipped because the
row is user-assigned, re-classified to a different value, or left as is. -/
inductive RecatOutcome where
  | notScanned
  | skippedUserAssigned
  | updated
  | unchanged
deriving DecidableEq, Repr

/-- Modelled from the spec: how the re-classification pass treats one row
(spec.md section 4.5).  A row outside the filter is untouched; a filtered
row with is_user_assigned true is skipped unless the pass explicitly
includes user-assigned rows; otherwise the classification engine (passed in
as the classify argument, per the design note that rule evaluation is a
pure function of draft and rule set) supplies a fresh category and
confidence, and the row counts as updated exactly when that pair differs
from the stored one. -/
def recatRow (classify : Transaction → String × ℚ)
    (input : RecategorizeTransactionsInput) (tx : Transaction) :
    Transaction × RecatOutcome :=
  if !txMatchesRecatFilter input tx then (tx, RecatOutcome.notScanned)
  else if tx.is_user_assigned && !input.include_user_assigned then
    (tx, RecatOutcome.skippedUserAssigned)
  else
    let fresh := classify tx
    if fresh.1 == tx.category && fresh.2 == tx.category_confidence then
      (tx, RecatOutcome.unchanged)
    else
      ({ tx with category := fresh.1, category_confidence := fresh.2 },
       RecatOutcome.updated)

/-- Modelled from the spec: the explicit user-triggered re-classification
pass of spec.md section 4.5 (backend endpoint absent from the source tree):
apply recatRow to every persisted row and accumulate the four audit
counts. -/
def recategorizeTransactions (classify : Transaction → String × ℚ)
    (input : RecategorizeTransactionsInput) :
    List Transaction → List Transaction × RecategorizeTransactionsResult
  | [] => ([], { scanned_rows := 0, updated_rows := 0, unchanged_rows := 0,
                 skipped_user_assigned_rows := 0 })
  | tx :: rest =>
    let step := recatRow classify input tx
    let tail := recategorizeTransactions classify input rest
    let res := tail.2
    (step.1 :: tail.1,
     match step.2 with
     | RecatOutcome.notScanned => res
     | RecatOutcome.skippedUserAssigned =>
         { res with scanned_rows := res.scanned_rows + 1,
                    skipped_user_assigned_rows := res.skipped_user_assigned_rows + 1 }
     | RecatOutcome.updated =>
         { res with scanned_rows := res.scanned_rows + 1,
                    updated_rows := res.updated_rows + 1 }
     | RecatOutcome.unchanged =>
         { res with scanned_rows := res.scanned_rows + 1,
                    unchanged_rows := res.unchanged_rows + 1 })

/-! ## Spec-modelled rule config export and load -/

/-- One entry of the structured rule config format: spec.md section 6
states the format is an ordered list of records with exactly these six
fields. -/
structure ClassificationRuleConfigEntry where
  rule_type : ClassificationRuleType
  pattern : String
  category : String
  confidence : ℚ
  priority : Int
  is_active : Bool
deriving DecidableEq, Repr

/-- Modelled from the spec: a persisted Classification Rule row (spec.md
section 3; backend persistence model absent from the source tree).  The id
is store-assigned and is not part of the config contract. -/
structure ClassificationRuleRow where
  id : String
  rule_type : ClassificationRuleType
  pattern : String
  category : String
  confidence : ℚ
  priority : Int
  is_active : Bool
deriving DecidableEq, Repr

/-- Projection of a persisted rule onto the six config fields. -/
def ruleRowToConfigEntry (r : ClassificationRuleRow) : ClassificationRuleConfigEntry :=
  { rule_type := r.rule_type, pattern := r.pattern, category := r.category,
    confidence := r.confidence, priority := r.priority, is_active := r.is_active }

/-- A fresh rule row built from one config entry; the store-assigned id is
not represented in the config contract and is left empty. -/
def configEntryToRuleRow (e : ClassificationRuleConfigEntry) : ClassificationRuleRow :=
  { id := "", rule_type := e.rule_type, pattern := e.pattern, category := e.category,
    confidence := e.confidence, priority := e.priority, is_active := e.is_active }

/-- Modelled from the spec: the config export operation behind the
config/save endpoint (spec.md section 6; backend absent from the source
tree): serialize the live rules, in order, to the structured format. -/
def saveClassificationRulesConfig (rules : List ClassificationRuleRow) :
    List ClassificationRuleConfigEntry :=
  rules.map ruleRowToConfigEntry

/-- Modelled from the spec: the config load operation behind the
config/load endpoint (spec.md section 6; backend absent from the source
tree): with replace semantics the config becomes the whole live rule set,
otherwise it is merged after the existing rules. -/
def loadClassificationRulesConfig (replaceExisting : Bool)
    (config : List ClassificationRuleConfigEntry)
    (existing : List ClassificationRuleRow) : List ClassificationRuleRow :=
  if replaceExisting then config.map configEntryToRuleRow
  else existing ++ config.map configEntryToRuleRow

/-! ## Spec-modelled merchant normalization and fingerprint -/

/-- Modelled from the spec: a representative set of payment-processor
boilerplate tokens removed by the merchant text-cleanup pass (spec.md
section 4.2 names the category of tokens, not the exact list). -/
def boilerplateTokens : List String :=
  ["pos", "debit", "credit", "purchase", "payment", "card"]

/-- ASCII case folding of one character. -/
def asciiLowerChar (c : Char) : Char :=
  if 65 ≤ c.toNat ∧ c.toNat ≤ 90 then Char.ofNat (c.toNat + 32) else c

/-- ASCII case folding of a string. -/
def asciiLower (s : String) : String :=
  String.mk (s.data.map asciiLowerChar)

/-- Splitting a character list on single spaces, preserving empty pieces. -/
def splitOnSpace : List Char → List (List Char)
  | [] => [[]]
  | c :: rest =>
    match splitOnSpace rest with
    | [] => [[c]]
    | t :: ts => if c == ' ' then [] :: t :: ts else (c :: t) :: ts

/-- Joining token strings back with single spaces. -/
def joinWithSpace : List String → String
  | [] => ""
  | [t] => t
  | t :: rest => t ++ " " ++ joinWithSpace rest

/-- Modelled from the spec: the deterministic merchant text-cleanup pass of
spec.md section 4.2 (backend normalizer absent from the source tree): case
folding, removal of boilerplate tokens, then known-alias substitution via
the configurable alias table. -/
def normalizeMerchant (aliasTable : List (String × String)) (raw : String) : String :=
  let lowered := asciiLower raw
  let tokens := ((splitOnSpace lowered.data).map String.mk).filter
    (fun t => !(boilerplateTokens.contains t) && !(t == ""))
  let cleaned := joinWithSpace tokens
  match aliasTable.find? (fun entry => entry.1 == cleaned) with
  | some entry => entry.2
  | none => cleaned

/-- Serialization of a direction inside the fingerprint key. -/
def directionKey : Direction → String
  | Direction.debit => "debit"
  | Direction.credit => "credit"

/-- Modelled from the spec: the fingerprint generator of spec.md section
4.3 and README note 12 (backend absent from the source tree): a
deterministic function of exactly the quadruple of transaction date,
normalized merchant, amount and direction. -/
def dedupeFingerprint (transaction_date : String) (merchant_normalized : String)
    (amount : Int) (direction : Direction) : String :=
  transaction_date ++ "|" ++ merchant_normalized ++ "|" ++ toString amount ++
    "|" ++ directionKey direction

/-! ## Helper lemmas -/

/-- Membership in the conditional pair list of an optional string field. -/
lemma mem_optStringPair {key : String} {o : Option String} {kv : String × String} :
    kv ∈ optStringPair key o ↔ kv.1 = key ∧ o = some kv.2 ∧ kv.2 ≠ "" := by
  cases o with
  | none => simp [optStringPair]
  | some s =>
    by_cases hs : s = ""
    · subst hs
      constructor
      · intro hmem
        simp [optStringPair] at hmem
      · rintro ⟨-, h2, h3⟩
        exact absurd (Option.some.inj h2).symm h3
    · have hbeq : (s == "") = false := by
        exact beq_eq_false_iff_ne.mpr hs
      simp only [optStringPair, hbeq, Bool.false_eq_true, if_false, List.mem_singleton]
      constructor
      · rintro rfl
        exact ⟨rfl, rfl, hs⟩
      · rintro ⟨h1, h2, h3⟩
        cases kv
        cases h2
        cases h1
        rfl

/-- Membership in the conditional pair list of an optional numeric field. -/
lemma mem_optNumPair {key : String} {o : Option Int} {kv : String × String} :
    kv ∈ optNumPair key o ↔ ∃ n, o = some n ∧ kv = (key, toString n) := by
  cases o with
  | none => simp [optNumPair]
  | some n =>
    simp only [optNumPair, List.mem_singleton]
    constructor
    · rintro rfl
      exact ⟨n, rfl, rfl⟩
    · rintro ⟨m, hm, hkv⟩
      cases hm
      exact hkv

/-- A serialized non-empty pair list is a non-empty string. -/
lemma serializeQueryPairs_ne_empty {kvs : List (String × String)} (h : kvs ≠ []) :
    serializeQueryPairs kvs ≠ "" := by
  match kvs with
  | [] => exact absurd rfl h
  | [kv] =>
    intro hcontra
    have hlen := congrArg String.length hcontra
    have heq : ("=" : String).length = 1 := rfl
    simp [serializeQueryPairs, String.length_append, heq] at hlen
  | kv :: kv2 :: rest =>
    intro hcontra
    have hlen := congrArg String.length hcontra
    have heq : ("=" : String).length = 1 := rfl
    have hamp : ("&" : String).length = 1 := rfl
    simp [serializeQueryPairs, String.length_append, heq, hamp] at hlen

/-- Claim C10: withQuery includes a query parameter exactly when the
corresponding field is set: start_date, end_date and category appear in the
query pair list if and only if they are non-empty strings (an empty-string
filter is dropped), limit and offset appear if and only if they are defined
(a value of 0 is included), and when no parameter is included the path is
returned unchanged with no question-mark suffix (otherwise the serialized
query is appended after one). -/
theorem withQuery_param_inclusion (path : String) (params : TransactionsQuery) :
    (∀ v : String, ("start_date", v) ∈ queryPairs params ↔
        params.start_date = some v ∧ v ≠ "") ∧
    (∀ v : String, ("end_date", v) ∈ queryPairs params ↔
        params.end_date = some v ∧ v ≠ "") ∧
    (∀ v : String, ("category", v) ∈ queryPairs params ↔
        params.category = some v ∧ v ≠ "") ∧
    ((∃ v, ("limit", v) ∈ queryPairs params) ↔ params.limit.isSome = true) ∧
    (∀ n : Int, params.limit = some n → ("limit", toString n) ∈ queryPairs params) ∧
    ((∃ v, ("offset", v) ∈ queryPairs params) ↔ params.offset.isSome = true) ∧
    (∀ n : Int, params.offset = some n → ("offset", toString n) ∈ queryPairs params) ∧
    (queryPairs params = [] → withQuery path params = path) ∧
    (queryPairs params ≠ [] →
      ∃ s, s ≠ "" ∧ withQuery path params = path ++ "?" ++ s) := by
  have hsd_ed : ¬(("start_date" : String) = "end_date") := by decide
  have hsd_cat : ¬(("start_date" : String) = "category") := by decide
  have hsd_lim : ¬(("start_date" : String) = "limit") := by decide
  have hsd_off : ¬(("start_date" : String) = "offset") := by decide
  have hed_sd : ¬(("end_date" : String) = "start_date") := by decide
  have hed_cat : ¬(("end_date" : String) = "category") := by decide
  have hed_lim : ¬(("end_date" : String) = "limit") := by decide
  have hed_off : ¬(("end_date" : String) = "offset") := by decide
  have hcat_sd : ¬(("category" : String) = "start_date") := by decide
  have hcat_ed : ¬(("category" : String) = "end_date") := by decide
  have hcat_lim : ¬(("category" : String) = "limit") := by decide
  have hcat_off : ¬(("category" : String) = "offset") := by decide
  have hlim_sd : ¬(("limit" : String) = "start_date") := by decide
  have hlim_ed : ¬(("limit" : String) = "end_date") := by decide
  have hlim_cat : ¬(("limit" : String) = "category") := by decide
  have hlim_off : ¬(("limit" : String) = "offset") := by decide
  have hoff_sd : ¬(("offset" : String) = "start_date") := by decide
  have hoff_ed : ¬(("offset" : String) = "end_date") := by decide
  have hoff_cat : ¬(("offset" : String) = "category") := by decide
  have hoff_lim : ¬(("offset" : String) = "limit") := by decide
  refine ⟨?_, ?_, ?_, ?_, ?_, ?_, ?_, ?_, ?_⟩
  · intro v
    simp [queryPairs, List.mem_append, mem_optStringPair, mem_optNumPair,
      hsd_ed, hsd_cat, hsd_lim, hsd_off]
  · intro v
    simp [queryPairs, List.mem_append, mem_optStringPair, mem_optNumPair,
      hed_sd, hed_cat, hed_lim, hed_off]
  · intro v
    simp [queryPairs, List.mem_append, mem_optStringPair, mem_optNumPair,
      hcat_sd, hcat_ed, hcat_lim, hcat_off]
  · constructor
    · rintro ⟨v, hv⟩
      simp [queryPairs, List.mem_append, mem_optStringPair, mem_optNumPair,
        hlim_sd, hlim_ed, hlim_cat, hlim_off] at hv
      obtain ⟨n, hn, -⟩ := hv
      simp [hn]
    · intro hsome
      obtain ⟨n, hn⟩ := Option.isSome_iff_exists.mp hsome
      refine ⟨toString n, ?_⟩
      simp [queryPairs, List.mem_append, mem_optStringPair, mem_optNumPair,
        hlim_sd, hlim_ed, hlim_cat, hlim_off]
      exact ⟨n, hn, rfl⟩
  · intro n hn
    simp [queryPairs, List.mem_append, mem_optStringPair, mem_optNumPair,
      hlim_sd, hlim_ed, hlim_cat, hlim_off]
    exact ⟨n, hn, rfl⟩
  · constructor
    · rintro ⟨v, hv⟩
      simp [queryPairs, List.mem_append, mem_optStringPair, mem_optNumPair,
        hoff_sd, hoff_ed, hoff_cat, hoff_lim] at hv
      obtain ⟨n, hn, -⟩ := hv
      simp [hn]
    · intro hsome
      obtain ⟨n, hn⟩ := Option.isSome_iff_exists.mp hsome
      refine ⟨toString n, ?_⟩
      simp [queryPairs, List.mem_append, mem_optStringPair, mem_optNumPair,
        hoff_sd, hoff_ed, hoff_cat, hoff_lim]
      exact ⟨n, hn, rfl⟩
  · intro n hn
    simp [queryPairs, List.mem_append, mem_optStringPair, mem_optNumPair,
      hoff_sd, hoff_ed, hoff_cat, hoff_lim]
    exact ⟨n, hn, rfl⟩
  · intro hmt
    simp [withQuery, hmt, serializeQueryPairs]
  · intro hne
    refine ⟨serializeQueryPairs (queryPairs params), serializeQueryPairs_ne_empty hne, ?_⟩
    have hfalse : (serializeQueryPairs (queryPairs params) == "") = false :=
      beq_eq_false_iff_ne.mpr (serializeQueryPairs_ne_empty hne)
    simp [withQuery, hfalse]

/-- Concrete query used by the C10 witness. -/
def c10ParamsSome : TransactionsQuery :=
  { start_date := some "2024-01-01", end_date := none, category := none,
    limit := some 0, offset := none }

/-- Concrete query with only dropped fields, used by the C10 witness. -/
def c10ParamsDropped : TransactionsQuery :=
  { start_date := some "", end_date := none, category := some "",
    limit := none, offset := none }

/-- Witness for C10 at concrete inputs: the non-empty start date and the
zero limit are included, and a query of empty-string filters leaves the
path untouched. -/
theorem withQuery_param_inclusion_witness :
    ("start_date", "2024-01-01") ∈ queryPairs c10ParamsSome ∧
    ("limit", toString (0 : Int)) ∈ queryPairs c10ParamsSome ∧
    withQuery "/api/transactions" c10ParamsDropped = "/api/transactions" := by
  obtain ⟨hsd, -, -, -, hlim, -, -, hempty, -⟩ :=
    withQuery_param_inclusion "/api/transactions" c10ParamsSome
  obtain ⟨-, -, -, -, -, -, -, hempty2, -⟩ :=
    withQuery_param_inclusion "/api/transactions" c10ParamsDropped
  refine ⟨(hsd "2024-01-01").mpr ⟨rfl, by decide⟩, hlim 0 rfl, hempty2 (by decide)⟩

/-- An ok (status 200) response whose body is not valid JSON, so
response.json rejects on it; used to refute the throws-iff-not-ok claim for
parseJsonResponse. -/
def c9OkBadJson : FetchResponse Nat :=
  { status := 200, bodyText := "<html>bad gateway</html>", jsonBody := none }

/-- Counterexample to C9 as stated: on an ok response whose body is not
valid JSON, parseJsonResponse does throw — the SyntaxError of
response.json, whose message is not the response body text — so the
claimed throws-iff-not-ok biconditional fails at this input. -/
theorem parseJsonResponse_throws_iff_not_ok_counterexample :
    ¬((∃ e, parseJsonResponse c9OkBadJson = Except.error e) ↔
        ¬(200 ≤ c9OkBadJson.status ∧ c9OkBadJson.status ≤ 299)) ∧
    parseJsonResponse c9OkBadJson = Except.error jsonSyntaxErrorMessage ∧
    jsonSyntaxErrorMessage ≠ c9OkBadJson.bodyText := by
  refine ⟨?_, rfl, by decide⟩
  intro h
  exact h.mp ⟨jsonSyntaxErrorMessage, rfl⟩ (by decide)

/-- Claim C9 (amended): parseJsonResponse throws on every non-ok response
(status outside the 2xx range) without touching the body JSON, and the
error message is then the response body text when that text is non-empty
and otherwise the fallback naming the status; on an ok response it returns
the parsed JSON body when the body is valid JSON and otherwise propagates
the SyntaxError of response.json — so it throws if and only if the
response is not ok or an ok body fails to parse as JSON.
deleteClassificationRule parses no JSON, so it does raise if and only if
the response is not ok, with the same message rule. -/
theorem parseJsonResponse_error_contract :
    ∀ (T : Type) (r : FetchResponse T) (d : FetchResponse Unit),
      ((∃ e, parseJsonResponse r = Except.error e) ↔
        (¬(200 ≤ r.status ∧ r.status ≤ 299) ∨ r.jsonBody = none)) ∧
      (¬(200 ≤ r.status ∧ r.status ≤ 299) → r.bodyText ≠ "" →
        parseJsonResponse r = Except.error r.bodyText) ∧
      (¬(200 ≤ r.status ∧ r.status ≤ 299) → r.bodyText = "" →
        parseJsonResponse r = Except.error (requestFailedMessage r.status)) ∧
      (∀ v, 200 ≤ r.status ∧ r.status ≤ 299 → r.jsonBody = some v →
        parseJsonResponse r = Except.ok v) ∧
      (200 ≤ r.status ∧ r.status ≤ 299 → r.jsonBody = none →
        parseJsonResponse r = Except.error jsonSyntaxErrorMessage) ∧
      ((∃ e, deleteClassificationRule d = Except.error e) ↔
        ¬(200 ≤ d.status ∧ d.status ≤ 299)) ∧
      (200 ≤ d.status ∧ d.status ≤ 299 → deleteClassificationRule d = Except.ok ()) ∧
      (¬(200 ≤ d.status ∧ d.status ≤ 299) → d.bodyText ≠ "" →
        deleteClassificationRule d = Except.error d.bodyText) ∧
      (¬(200 ≤ d.status ∧ d.status ≤ 299) → d.bodyText = "" →
        deleteClassificationRule d = Except.error (requestFailedMessage d.status)) := by
  intro T r d
  by_cases hok : 200 ≤ r.status ∧ r.status ≤ 299
  all_goals by_cases hdok : 200 ≤ d.status ∧ d.status ≤ 299
  all_goals by_cases hb : r.bodyText = ""
  all_goals by_cases hdb : d.bodyText = ""
  all_goals cases hj : r.jsonBody
  all_goals
    simp [parseJsonResponse, deleteClassificationRule, FetchResponse.ok,
      hok, hdok, hb, hdb, hj]

/-- A 404 response with a non-empty error body, used by the C9 witness. -/
def c9Resp404 : FetchResponse Nat :=
  { status := 404, bodyText := "review not found", jsonBody := some 3 }

/-- A 500 response with an empty body, used by the C9 witness. -/
def c9Resp500 : FetchResponse Nat :=
  { status := 500, bodyText := "", jsonBody := some 3 }

/-- A 200 response with a parsed JSON body, used by the C9 witness. -/
def c9Resp200 : FetchResponse Nat :=
  { status := 200, bodyText := "", jsonBody := some 3 }

/-- A 404 response to a delete request, used by the C9 witness. -/
def c9Del404 : FetchResponse Unit :=
  { status := 404, bodyText := "rule not found", jsonBody := none }

/-- Witness for the amended C9 at concrete responses: a 404 with a
non-empty body throws that body, a 500 with an empty body throws the
fallback message, a 200 with a parsed body returns it, a 200 with an
unparsable body throws the SyntaxError message, and the delete helper
throws the body of the 404 shape. -/
theorem parseJsonResponse_error_contract_witness :
    parseJsonResponse c9Resp404 = Except.error "review not found" ∧
    parseJsonResponse c9Resp500 = Except.error "Request failed with status 500" ∧
    parseJsonResponse c9Resp200 = Except.ok 3 ∧
    parseJsonResponse c9OkBadJson = Except.error jsonSyntaxErrorMessage ∧
    deleteClassificationRule c9Del404 = Except.error "rule not found" := by
  obtain ⟨-, h404, -, -, -, -, -, hdel, -⟩ :=
    parseJsonResponse_error_contract Nat c9Resp404 c9Del404
  obtain ⟨-, -, h500, -, -, -, -, -, -⟩ :=
    parseJsonResponse_error_contract Nat c9Resp500 c9Del404
  obtain ⟨-, -, -, h200, -, -, -, -, -⟩ :=
    parseJsonResponse_error_contract Nat c9Resp200 c9Del404
  obtain ⟨-, -, -, -, hbad, -, -, -, -⟩ :=
    parseJsonResponse_error_contract Nat c9OkBadJson c9Del404
  refine ⟨h404 (by decide) (by decide), ?_, h200 3 (by decide) rfl,
    hbad (by decide) rfl, hdel (by decide) (by decide)⟩
  have := h500 (by decide) rfl
  simpa [requestFailedMessage] using this

/-- Claim C6: for every classification-rule create or update, a rule with
an empty (after trimming) pattern, a confidence outside the closed unit
interval (or not a finite number), or a negative or non-integer priority is
rejected with an error and no payload is sent to the API, so no rule is
written or modified; and a payload that is sent carries exactly the parsed
values, which are in range — out-of-range values are never silently clamped
into range. -/
theorem ruleWrite_rejects_invalid (form : NewRuleForm) (draft : RuleDraft) :
    ((form.newRulePattern.trim = "" ∨ confidenceInvalid form.newRuleConfidence = true ∨
        priorityInvalid form.newRulePriority = true) →
      ∃ e, handleCreateRule form = Except.error e) ∧
    (∀ r, handleCreateRule form = Except.ok r →
      form.newRuleConfidence = JsNumber.val r.confidence ∧
      0 ≤ r.confidence ∧ r.confidence ≤ 1 ∧
      form.newRulePriority = JsNumber.val r.priority ∧
      0 ≤ r.priority ∧ r.priority.den = 1 ∧
      r.pattern = form.newRulePattern.trim ∧ r.pattern ≠ "") ∧
    ((draft.pattern.trim = "" ∨ confidenceInvalid draft.confidence = true ∨
        priorityInvalid draft.priority = true) →
      ∃ e, handleSaveRule draft = Except.error e) ∧
    (∀ r, handleSaveRule draft = Except.ok r →
      draft.confidence = JsNumber.val r.confidence ∧
      0 ≤ r.confidence ∧ r.confidence ≤ 1 ∧
      draft.priority = JsNumber.val r.priority ∧
      0 ≤ r.priority ∧ r.priority.den = 1 ∧
      r.pattern = draft.pattern.trim ∧ r.pattern ≠ "") := by
  refine ⟨?_, ?_, ?_, ?_⟩
  · intro h
    by_cases h1 : (form.newRulePattern.trim == "") = true
    · exact ⟨"Rule pattern is required.", by simp [handleCreateRule, h1]⟩
    · by_cases h2 : (form.newRuleCategory.trim == "") = true
      · exact ⟨"Rule category is required.", by simp [handleCreateRule, h1, h2]⟩
      · by_cases h3 : confidenceInvalid form.newRuleConfidence = true
        · exact ⟨"Rule confidence must be between 0 and 1.",
            by simp [handleCreateRule, h1, h2, h3]⟩
        · by_cases h4 : priorityInvalid form.newRulePriority = true
          · exact ⟨"Rule priority must be a non-negative integer.",
              by simp [handleCreateRule, h1, h2, h3, h4]⟩
          · exfalso
            rcases h with hp | hc | hpr
            · exact h1 (beq_iff_eq.mpr hp)
            · exact h3 hc
            · exact h4 hpr
  · intro r hr
    by_cases h1 : (form.newRulePattern.trim == "") = true
    · simp [handleCreateRule, h1] at hr
    · by_cases h2 : (form.newRuleCategory.trim == "") = true
      · simp [handleCreateRule, h1, h2] at hr
      · by_cases h3 : confidenceInvalid form.newRuleConfidence = true
        · simp [handleCreateRule, h1, h2, h3] at hr
        · by_cases h4 : priorityInvalid form.newRulePriority = true
          · simp [handleCreateRule, h1, h2, h3, h4] at hr
          · cases hconf : form.newRuleConfidence with
            | val c =>
              cases hprio : form.newRulePriority with
              | val p =>
                rw [hconf] at h3
                rw [hprio] at h4
                simp [handleCreateRule, h1, h2, h3, h4, hconf, hprio] at hr
                have hcb : ¬(c < 0 ∨ 1 < c) := by
                  simpa [confidenceInvalid] using h3
                have hpb : ¬(p.den ≠ 1 ∨ p < 0) := by
                  simpa [priorityInvalid] using h4
                push_neg at hcb hpb
                subst hr
                refine ⟨rfl, hcb.1, hcb.2, rfl, hpb.2, hpb.1, rfl, ?_⟩
                exact fun hcon => h1 (beq_iff_eq.mpr hcon)
              | nan => rw [hprio] at h4; exact absurd rfl h4
              | posInf => rw [hprio] at h4; exact absurd rfl h4
              | negInf => rw [hprio] at h4; exact absurd rfl h4
            | nan => rw [hconf] at h3; exact absurd rfl h3
            | posInf => rw [hconf] at h3; exact absurd rfl h3
            | negInf => rw [hconf] at h3; exact absurd rfl h3
  · intro h
    by_cases h1 : (draft.pattern.trim == "") = true
    · exact ⟨"Rule pattern is required.", by simp [handleSaveRule, h1]⟩
    · by_cases h2 : (draft.category.trim == "") = true
      · exact ⟨"Rule category is required.", by simp [handleSaveRule, h1, h2]⟩
      · by_cases h3 : confidenceInvalid draft.confidence = true
        · exact ⟨"Rule confidence must be between 0 and 1.",
            by simp [handleSaveRule, h1, h2, h3]⟩
        · by_cases h4 : priorityInvalid draft.priority = true
          · exact ⟨"Rule priority must be a non-negative integer.",
              by simp [handleSaveRule, h1, h2, h3, h4]⟩
          · exfalso
            rcases h with hp | hc | hpr
            · exact h1 (beq_iff_eq.mpr hp)
            · exact h3 hc
            · exact h4 hpr
  · intro r hr
    by_cases h1 : (draft.pattern.trim == "") = true
    · simp [handleSaveRule, h1] at hr
    · by_cases h2 : (draft.category.trim == "") = true
      · simp [handleSaveRule, h1, h2] at hr
      · by_cases h3 : confidenceInvalid draft.confidence = true
        · simp [handleSaveRule, h1, h2, h3] at hr
        · by_cases h4 : priorityInvalid draft.priority = true
          · simp [handleSaveRule, h1, h2, h3, h4] at hr
          · cases hconf : draft.confidence with
            | val c =>
              cases hprio : draft.priority with
              | val p =>
                rw [hconf] at h3
                rw [hprio] at h4
                simp [handleSaveRule, h1, h2, h3, h4, hconf, hprio] at hr
                have hcb : ¬(c < 0 ∨ 1 < c) := by
                  simpa [confidenceInvalid] using h3
                have hpb : ¬(p.den ≠ 1 ∨ p < 0) := by
                  simpa [priorityInvalid] using h4
                push_neg at hcb hpb
                subst hr
                refine ⟨rfl, hcb.1, hcb.2, rfl, hpb.2, hpb.1, rfl, ?_⟩
                exact fun hcon => h1 (beq_iff_eq.mpr hcon)
              | nan => rw [hprio] at h4; exact absurd rfl h4
              | posInf => rw [hprio] at h4; exact absurd rfl h4
              | negInf => rw [hprio] at h4; exact absurd rfl h4
            | nan => rw [hconf] at h3; exact absurd rfl h3
            | posInf => rw [hconf] at h3; exact absurd rfl h3
            | negInf => rw [hconf] at h3; exact absurd rfl h3

/-- Form with a confidence of 2, above the unit interval, used by the C6
witness. -/
def c6BadForm : NewRuleForm :=
  { newRuleType := ClassificationRuleType.merchant_contains,
    newRulePattern := "walmart", newRuleCategory := "groceries_other",
    newRuleConfidence := JsNumber.val 2,
    newRulePriority := JsNumber.val 20, newRuleActive := true }

/-- Draft with a negative priority, used by the C6 witness. -/
def c6BadDraft : RuleDraft :=
  { rule_type := ClassificationRuleType.merchant_contains,
    pattern := "walmart", category := "groceries_other",
    confidence := JsNumber.val ((1 : ℚ) / 2),
    priority := JsNumber.val (-1), is_active := true }

/-- Witness for C6 at concrete inputs: a create with confidence 2 and a
save with priority -1 are both rejected with an error. -/
theorem ruleWrite_rejects_invalid_witness :
    (∃ e, handleCreateRule c6BadForm = Except.error e) ∧
    (∃ e, handleSaveRule c6BadDraft = Except.error e) := by
  obtain ⟨hcreate, -, hsave, -⟩ := ruleWrite_rejects_invalid c6BadForm c6BadDraft
  exact ⟨hcreate (Or.inr (Or.inl (by decide))), hsave (Or.inr (Or.inr (by decide)))⟩

/-- Claim C8: a manual-expense submission whose amount is not a finite
number greater than zero is rejected with a validation error and
createManualTransaction is never invoked, so no transaction is created;
every payload that is sent carries a strictly positive amount, so the
canonical amount is a non-negative magnitude. -/
theorem handleAddManualExpense_amount_guard
    (createCategory : String → String) (form : ManualExpenseForm) :
    ((¬ ∃ q : ℚ, form.manualAmount = JsNumber.val q ∧ 0 < q) →
      ∃ e, handleAddManualExpense createCategory form = Except.error e) ∧
    (∀ payload, handleAddManualExpense createCategory form = Except.ok payload →
      0 < payload.amount ∧ form.manualAmount = JsNumber.val payload.amount) := by
  constructor
  · intro h
    by_cases h1 : (form.manualDate == "") = true
    · exact ⟨"Select a date.", by simp [handleAddManualExpense, h1]⟩
    · by_cases h2 : (form.manualDescription.trim == "") = true
      · exact ⟨"Description is required.", by simp [handleAddManualExpense, h1, h2]⟩
      · cases hamt : form.manualAmount with
        | val q =>
          have hq : ¬(0 < q) := fun hpos => h ⟨q, hamt, hpos⟩
          have hle : q ≤ 0 := not_lt.mp hq
          exact ⟨"Amount must be a positive number.",
            by simp [handleAddManualExpense, h1, h2, hamt, hle]⟩
        | nan =>
          exact ⟨"Amount must be a positive number.",
            by simp [handleAddManualExpense, h1, h2, hamt]⟩
        | posInf =>
          exact ⟨"Amount must be a positive number.",
            by simp [handleAddManualExpense, h1, h2, hamt]⟩
        | negInf =>
          exact ⟨"Amount must be a positive number.",
            by simp [handleAddManualExpense, h1, h2, hamt]⟩
  · intro payload hr
    by_cases h1 : (form.manualDate == "") = true
    · simp [handleAddManualExpense, h1] at hr
    · by_cases h2 : (form.manualDescription.trim == "") = true
      · simp [handleAddManualExpense, h1, h2] at hr
      · cases hamt : form.manualAmount with
        | val q =>
          by_cases h3 : q ≤ 0
          · simp [handleAddManualExpense, h1, h2, hamt, h3] at hr
          · simp only [handleAddManualExpense, h1, h2, hamt, h3,
              Bool.false_eq_true, if_false, if_neg] at hr
            have hq : 0 < q := not_le.mp h3
            split at hr
            · exact absurd hr (by simp)
            · injection hr with h
              subst h
              exact ⟨hq, rfl⟩
        | nan => simp [handleAddManualExpense, h1, h2, hamt] at hr
        | posInf => simp [handleAddManualExpense, h1, h2, hamt] at hr
        | negInf => simp [handleAddManualExpense, h1, h2, hamt] at hr

/-- Form with a negative amount, used by the C8 witness. -/
def c8BadForm : ManualExpenseForm :=
  { manualDate := "2024-01-02", manualDescription := "Trader Joes",
    manualMerchant := "", manualAmount := JsNumber.val (-5),
    manualCategory := "eating_out", manualNewCategory := "",
    assignableCategories := ["eating_out"] }

/-- Witness for C8 at a concrete input: a manual expense with amount -5 is
rejected with a validation error and no payload is produced. -/
theorem handleAddManualExpense_amount_guard_witness :
    ∃ e, handleAddManualExpense id c8BadForm = Except.error e := by
  refine (handleAddManualExpense_amount_guard id c8BadForm).1 ?_
  rintro ⟨q, hq, hpos⟩
  have h5 : JsNumber.val (-5 : ℚ) = JsNumber.val q := hq
  have h6 := JsNumber.val.inj h5
  rw [← h6] at hpos
  norm_num at hpos

/-- Claim C1: for every bulk-resolve request over the duplicate-review
queue, if the stated expected count does not equal the size of the live
pending set, the operation aborts entirely: the returned persisted state is
exactly the input state (so no review is resolved and no transaction is
created) and the outcome is an error, never a partial result. -/
theorem resolveDuplicateReviewsBulk_count_mismatch_aborts
    (st : DupReviewState) (reviewIds : List String)
    (action : DuplicateReviewResolveAction) (expected : Nat) (confirm : Bool) :
    expected ≠ pendingReviewCount st →
    (resolveDuplicateReviewsBulk st reviewIds action expected confirm).1 = st ∧
    ∃ e, (resolveDuplicateReviewsBulk st reviewIds action expected confirm).2 =
      Except.error e := by
  intro h
  cases confirm with
  | false =>
    exact ⟨rfl, ⟨"Bulk resolve requires explicit confirmation", rfl⟩⟩
  | true =>
    refine ⟨?_, ?_⟩
    · simp [resolveDuplicateReviewsBulk, h]
    · exact ⟨"Pending duplicate review count does not match; bulk resolve aborted",
        by simp [resolveDuplicateReviewsBulk, h]⟩

/-- A concrete pending review used by the C1 and C3 witnesses as a template. -/
def sampleReview (reviewId : String) : DuplicateReview :=
  { id := reviewId, source_import_id := "imp1", source_row_number := 3,
    duplicate_scope := "existing_transaction", duplicate_reason := "fingerprint_match",
    matched_transaction_id := some "tx9",
    transaction_date := "2024-03-01", description_raw := "AMZN Mktp US",
    merchant_normalized := "Amazon", amount := 4250, currency := "USD",
    direction := Direction.debit, category := "merchandise_shopping",
    category_confidence := 1, dedupe_fingerprint := "2024-03-01|Amazon|4250|debit",
    status := DuplicateReviewStatus.pending }

/-- Concrete state with two pending reviews, used by the C1 witness. -/
def c1State : DupReviewState :=
  { transactions := [], reviews := [sampleReview "r1", sampleReview "r2"] }

/-- Witness for C1 at a concrete input: a confirmed bulk request naming one
review while two are pending is rejected and leaves the state untouched. -/
theorem resolveDuplicateReviewsBulk_count_mismatch_aborts_witness :
    (resolveDuplicateReviewsBulk c1State ["r1"]
      DuplicateReviewResolveAction.mark_duplicate 1 true).1 = c1State ∧
    ∃ e, (resolveDuplicateReviewsBulk c1State ["r1"]
      DuplicateReviewResolveAction.mark_duplicate 1 true).2 = Except.error e :=
  resolveDuplicateReviewsBulk_count_mismatch_aborts c1State ["r1"]
    DuplicateReviewResolveAction.mark_duplicate 1 true (by decide)

/-- Claim C3: resolving a pending duplicate review with mark_duplicate
creates no transaction and removes the review row, and resolving it with
not_duplicate creates exactly one canonical transaction promoted from the
stored draft and removes the review row; in both cases the review id is
gone from the queue afterwards, so the resolution is terminal. -/
theorem resolveDuplicateReview_exclusive (st : DupReviewState) (reviewId : String)
    (r : DuplicateReview)
    (hfind : st.reviews.find? (fun x => x.id == reviewId) = some r)
    (hpending : r.status = DuplicateReviewStatus.pending) :
    ((resolveDuplicateReview st reviewId DuplicateReviewResolveAction.mark_duplicate).1.transactions
        = st.transactions ∧
      (resolveDuplicateReview st reviewId DuplicateReviewResolveAction.mark_duplicate).1.reviews
        = removeReview st.reviews reviewId ∧
      (∀ x ∈ (resolveDuplicateReview st reviewId
          DuplicateReviewResolveAction.mark_duplicate).1.reviews, x.id ≠ reviewId) ∧
      (resolveDuplicateReview st reviewId DuplicateReviewResolveAction.mark_duplicate).2
        = Except.ok { action := DuplicateReviewResolveAction.mark_duplicate,
                      deleted_review_id := r.id, created_transaction_id := none }) ∧
    ((resolveDuplicateReview st reviewId DuplicateReviewResolveAction.not_duplicate).1.transactions
        = st.transactions ++ [promoteReview r] ∧
      (resolveDuplicateReview st reviewId
          DuplicateReviewResolveAction.not_duplicate).1.transactions.length
        = st.transactions.length + 1 ∧
      (resolveDuplicateReview st reviewId DuplicateReviewResolveAction.not_duplicate).1.reviews
        = removeReview st.reviews reviewId ∧
      (∀ x ∈ (resolveDuplicateReview st reviewId
          DuplicateReviewResolveAction.not_duplicate).1.reviews, x.id ≠ reviewId) ∧
      (resolveDuplicateReview st reviewId DuplicateReviewResolveAction.not_duplicate).2
        = Except.ok { action := DuplicateReviewResolveAction.not_duplicate,
                      deleted_review_id := r.id,
                      created_transaction_id := some (promoteReview r).id }) := by
  have hterm : ∀ x ∈ removeReview st.reviews reviewId, x.id ≠ reviewId := by
    intro x hx
    have := List.of_mem_filter hx
    simpa using this
  refine ⟨⟨?_, ?_, ?_, ?_⟩, ⟨?_, ?_, ?_, ?_, ?_⟩⟩
  all_goals simp [resolveDuplicateReview, hfind, hpending]
  · exact hterm
  · exact hterm

/-- Concrete state with one pending review, used by the C3 witness. -/
def c3State : DupReviewState :=
  { transactions := [], reviews := [sampleReview "r1"] }

/-- Witness for C3 at a concrete input: on the one-pending-review state,
mark_duplicate leaves the transaction list empty and not_duplicate grows it
by exactly one. -/
theorem resolveDuplicateReview_exclusive_witness :
    (resolveDuplicateReview c3State "r1"
      DuplicateReviewResolveAction.mark_duplicate).1.transactions = c3State.transactions ∧
    (resolveDuplicateReview c3State "r1"
      DuplicateReviewResolveAction.not_duplicate).1.transactions.length
      = c3State.transactions.length + 1 := by
  obtain ⟨⟨hmark, -, -, -⟩, ⟨-, hlen, -, -, -⟩⟩ :=
    resolveDuplicateReview_exclusive c3State "r1" (sampleReview "r1")
      (by decide) (by decide)
  exact ⟨hmark, hlen⟩

/-- The transaction list returned by the re-classification pass is the
row-wise image of recatRow. -/
lemma recategorizeTransactions_fst (classify : Transaction → String × ℚ)
    (input : RecategorizeTransactionsInput) (txs : List Transaction) :
    (recategorizeTransactions classify input txs).1 =
      txs.map (fun t => (recatRow classify input t).1) := by
  induction txs with
  | nil => rfl
  | cons tx rest ih =>
    simp only [recategorizeTransactions, List.map_cons]
    exact congrArg _ ih

/-- A user-assigned row is returned untouched by a pass that does not
include user-assigned rows. -/
lemma recatRow_user_assigned (classify : Transaction → String × ℚ)
    (input : RecategorizeTransactionsInput) (tx : Transaction)
    (hua : tx.is_user_assigned = true)
    (hinc : input.include_user_assigned = false) :
    (recatRow classify input tx).1 = tx := by
  by_cases hf : txMatchesRecatFilter input tx
  · simp [recatRow, hf, hua, hinc]
  · simp [recatRow, hf]

/-- Claim C2: for every transaction with is_user_assigned true, a
re-classification pass whose filter excludes user-assigned rows (the
default, include_user_assigned false) returns that row unchanged — in
particular its category and category_confidence are untouched — and such a
row can differ in the output only when the pass was explicitly invoked with
include_user_assigned true. -/
theorem recategorize_preserves_user_assigned (classify : Transaction → String × ℚ)
    (input : RecategorizeTransactionsInput) (txs : List Transaction)
    (i : Nat) (hi : i < txs.length)
    (hua : (txs.get ⟨i, hi⟩).is_user_assigned = true) :
    ∃ hj : i < (recategorizeTransactions classify input txs).1.length,
      ((input.include_user_assigned = false →
          ((recategorizeTransactions classify input txs).1.get ⟨i, hj⟩ = txs.get ⟨i, hi⟩)) ∧
       (((recategorizeTransactions classify input txs).1.get ⟨i, hj⟩ ≠ txs.get ⟨i, hi⟩) →
          input.include_user_assigned = true)) := by
  have hfst := recategorizeTransactions_fst classify input txs
  have hlen : (recategorizeTransactions classify input txs).1.length = txs.length := by
    rw [hfst]; exact List.length_map _ _
  refine ⟨hlen ▸ hi, ?_, ?_⟩
  · intro hinc
    have hget : (recategorizeTransactions classify input txs).1.get ⟨i, hlen ▸ hi⟩
        = (recatRow classify input (txs.get ⟨i, hi⟩)).1 := by
      simp [hfst]
    rw [hget]
    exact recatRow_user_assigned classify input _ hua hinc
  · intro hne
    cases hinc : input.include_user_assigned with
    | true => rfl
    | false =>
      exfalso
      apply hne
      have hget : (recategorizeTransactions classify input txs).1.get ⟨i, hlen ▸ hi⟩
          = (recatRow classify input (txs.get ⟨i, hi⟩)).1 := by
        simp [hfst]
      rw [hget]
      exact recatRow_user_assigned classify input _ hua hinc

/-- A user-assigned transaction used by the C2 witness. -/
def c2UserTx : Transaction :=
  { id := "t1", source_import_id := "imp1", transaction_date := "2024-03-01",
    description_raw := "AMZN Mktp US", merchant_normalized := "Amazon",
    amount := 4250, currency := "USD", direction := Direction.debit,
    category := "merchandise_shopping", category_confidence := 1,
    is_user_assigned := true, dedupe_fingerprint := "2024-03-01|Amazon|4250|debit" }

/-- The default pass input used by the C2 witness: no filter, user-assigned
rows excluded. -/
def c2DefaultInput : RecategorizeTransactionsInput :=
  { start_date := none, end_date := none, category := none,
    include_user_assigned := false }

/-- A classifier that would re-bucket every row, used by the C2 witness. -/
def c2Classifier : Transaction → String × ℚ := fun _ => ("eating_out", 1 / 2)

/-- Witness for C2 at a concrete input: a default pass with a classifier
that maps everything to another category still returns the user-assigned
row unchanged. -/
theorem recategorize_preserves_user_assigned_witness :
    ∃ hj : 0 < (recategorizeTransactions c2Classifier c2DefaultInput [c2UserTx]).1.length,
      (recategorizeTransactions c2Classifier c2DefaultInput [c2UserTx]).1.get ⟨0, hj⟩
        = c2UserTx := by
  obtain ⟨hj, hpres, -⟩ :=
    recategorize_preserves_user_assigned c2Classifier c2DefaultInput [c2UserTx]
      0 (by decide) (by decide)
  exact ⟨hj, hpres rfl⟩

/-- Claim C5: every invocation of the re-classification pass returns the
four audit counts, and the scanned count always equals the sum of the
updated, unchanged and user-assignment-skipped counts over the filtered
set. -/
theorem recategorize_counts_sum (classify : Transaction → String × ℚ)
    (input : RecategorizeTransactionsInput) (txs : List Transaction) :
    ((recategorizeTransactions classify input txs).2).scanned_rows =
      ((recategorizeTransactions classify input txs).2).updated_rows +
      ((recategorizeTransactions classify input txs).2).unchanged_rows +
      ((recategorizeTransactions classify input txs).2).skipped_user_assigned_rows := by
  induction txs with
  | nil => rfl
  | cons tx rest ih =>
    cases houtcome : (recatRow classify input tx).2 with
    | notScanned => simp only [recategorizeTransactions, houtcome]; exact ih
    | skippedUserAssigned =>
      simp only [recategorizeTransactions, houtcome]
      omega
    | updated =>
      simp only [recategorizeTransactions, houtcome]
      omega
    | unchanged =>
      simp only [recategorizeTransactions, houtcome]
      omega

/-- A mixed transaction list used by the C5 witness: one user-assigned row,
one machine-categorized row. -/
def c5Txs : List Transaction :=
  [c2UserTx,
   { id := "t2", source_import_id := "imp1", transaction_date := "2024-03-02",
     description_raw := "STARBUCKS 123", merchant_normalized := "Starbucks",
     amount := 575, currency := "USD", direction := Direction.debit,
     category := "uncategorized", category_confidence := 0,
     is_user_assigned := false, dedupe_fingerprint := "2024-03-02|Starbucks|575|debit" }]

/-- Witness for C5 at a concrete input: the counts of a default pass over
the two-row list satisfy the sum identity. -/
theorem recategorize_counts_sum_witness :
    ((recategorizeTransactions c2Classifier c2DefaultInput c5Txs).2).scanned_rows =
      ((recategorizeTransactions c2Classifier c2DefaultInput c5Txs).2).updated_rows +
      ((recategorizeTransactions c2Classifier c2DefaultInput c5Txs).2).unchanged_rows +
      ((recategorizeTransactions c2Classifier c2DefaultInput c5Txs).2).skipped_user_assigned_rows :=
  recategorize_counts_sum c2Classifier c2DefaultInput c5Txs

/-- Claim C7: exporting the live classification rules to the structured
config format and loading that export back with replace semantics
reproduces exactly the original ordered rule set: load after export is the
identity on the ordered list of the six config fields, regardless of what
rule set it replaces. -/
theorem rulesConfig_roundtrip (rules existing : List ClassificationRuleRow) :
    (loadClassificationRulesConfig true (saveClassificationRulesConfig rules)
        existing).map ruleRowToConfigEntry = rules.map ruleRowToConfigEntry := by
  simp only [loadClassificationRulesConfig, saveClassificationRulesConfig,
    if_true, List.map_map]
  induction rules with
  | nil => rfl
  | cons r rest ih =>
    simp only [List.map_cons] at ih ⊢
    rw [ih]
    rfl

/-- A concrete two-rule set used by the C7 witness. -/
def c7Rules : List ClassificationRuleRow :=
  [{ id := "rule1", rule_type := ClassificationRuleType.merchant_contains,
     pattern := "walmart", category := "groceries_other", confidence := 9 / 10,
     priority := 20, is_active := true },
   { id := "rule2", rule_type := ClassificationRuleType.description_contains,
     pattern := "netflix", category := "subscriptions", confidence := 1,
     priority := 5, is_active := false }]

/-- Witness for C7 at a concrete input: the two-rule set survives an
export-then-load-with-replace round trip on the six config fields. -/
theorem rulesConfig_roundtrip_witness :
    (loadClassificationRulesConfig true (saveClassificationRulesConfig c7Rules)
        []).map ruleRowToConfigEntry = c7Rules.map ruleRowToConfigEntry :=
  rulesConfig_roundtrip c7Rules []

/-- Claim C4: the fingerprint generator is a deterministic function of
exactly the quadruple of transaction date, normalized merchant, amount and
direction — equal quadruples always give equal fingerprints — and two
different raw descriptions that normalize to the same merchant under the
same alias table yield the same fingerprint for the rest of the quadruple
held fixed. -/
theorem dedupeFingerprint_deterministic :
    (∀ (d1 d2 m1 m2 : String) (a1 a2 : Int) (dir1 dir2 : Direction),
      d1 = d2 → m1 = m2 → a1 = a2 → dir1 = dir2 →
      dedupeFingerprint d1 m1 a1 dir1 = dedupeFingerprint d2 m2 a2 dir2) ∧
    (∀ (aliasTable : List (String × String)) (raw1 raw2 date : String)
        (amount : Int) (dir : Direction),
      normalizeMerchant aliasTable raw1 = normalizeMerchant aliasTable raw2 →
      dedupeFingerprint date (normalizeMerchant aliasTable raw1) amount dir =
        dedupeFingerprint date (normalizeMerchant aliasTable raw2) amount dir) := by
  constructor
  · intro d1 d2 m1 m2 a1 a2 dir1 dir2 hd hm ha hdir
    rw [hd, hm, ha, hdir]
  · intro aliasTable raw1 raw2 date amount dir hnorm
    rw [hnorm]

/-- The alias table used by the C4 witness. -/
def c4AliasTable : List (String × String) :=
  [("amzn mktp us", "Amazon"), ("amazon.com", "Amazon")]

/-- Witness for C4 at concrete inputs: two different raw descriptions that
both normalize to Amazon produce the same fingerprint for the quadruple of
2024-03-01, Amazon, 4250 and debit. -/
theorem dedupeFingerprint_deterministic_witness :
    dedupeFingerprint "2024-03-01" (normalizeMerchant c4AliasTable "AMZN Mktp US")
        4250 Direction.debit =
      dedupeFingerprint "2024-03-01" (normalizeMerchant c4AliasTable "AMAZON.COM")
        4250 Direction.debit :=
  dedupeFingerprint_deterministic.2 c4AliasTable "AMZN Mktp US" "AMAZON.COM"
    "2024-03-01" 4250 Direction.debit (by decide)

end ExpenseTracker
